import Mathlib

/-!
Shallow embedding of the TypeScript ambient declaration file `src/index.d.ts`
of the `coffeescript-types` package.  The file contains no executable code:
it declares, for a type-checker's benefit, the shape of the CoffeeScript
compiler's AST node classes, a `Scope` class, a `LocationData` interface and
the module-level exports.  We embed the declaration file itself as data: a
list of class/interface declarations, each with a name, an optional parent
(the `extends` clause), and a list of typed members (fields and method
signatures, all body-less), together with the type-alias, module, and const
declarations.  The claims are then settled as properties of this data.
-/

namespace CSTypes

/-- Embedding of the TypeScript type expressions that occur in the file.
Unions are binary (`a | b | c` is right-nested); `litStr s` is a string
literal type such as the members of `ChildKind`; `litTrue` is the literal
type `true`; `ref n` refers to a declared class, interface or type alias by
name; `obj` is an anonymous object type; `fn` a function type with named,
possibly-optional parameters. -/
inductive Ty where
  | str : Ty
  | num : Ty
  | boolean : Ty
  | anyTy : Ty
  | undef : Ty
  | nullTy : Ty
  | voidTy : Ty
  | litTrue : Ty
  | litStr (s : String) : Ty
  | ref (name : String) : Ty
  | arr (elem : Ty) : Ty
  | union (a b : Ty) : Ty
  | obj (fields : List (String × Bool × Ty)) : Ty
  | fn (params : List (String × Bool × Ty)) (ret : Ty) : Ty

/-- Right-nested union of a list of types (used for the large `ChildKind`
union).  The empty list gives `undef`, which never arises here. -/
def unionOf : List Ty → Ty
  | [] => Ty.undef
  | [t] => t
  | t :: ts => Ty.union t (unionOf ts)

/-- One member of a class or interface body.  `optional` records a `?`
marker; `isMethod` distinguishes method signatures from fields (a method's
`ty` is the `Ty.fn` of its signature); `body` is the implementation, which
for every member of an ambient declaration file is `none`. -/
structure Member where
  name : String
  optional : Bool
  ty : Ty
  isMethod : Bool
  body : Option String

/-- A required field declaration. -/
def mkField (n : String) (t : Ty) : Member := ⟨n, false, t, false, none⟩

/-- An optional (`?`) field declaration. -/
def mkOptField (n : String) (t : Ty) : Member := ⟨n, true, t, false, none⟩

/-- A body-less method signature. -/
def mkMethod (n : String) (ps : List (String × Bool × Ty)) (r : Ty) : Member :=
  ⟨n, false, Ty.fn ps r, true, none⟩

/-- Whether a TypeScript declaration is a `class` or an `interface`. -/
inductive DeclKind where
  | classK : DeclKind
  | interfaceK : DeclKind

/-- A class or interface declaration: name, optional `extends` parent,
member list. -/
structure ClassDecl where
  kind : DeclKind
  name : String
  parent : Option String
  members : List Member

/-- The type alias `ChildKind` (src/index.d.ts lines 18-23): a union of the
string literal types naming the child-bearing properties. -/
def childKindTy : Ty := unionOf
  [Ty.litStr "accessor", Ty.litStr "alias", Ty.litStr "args", Ty.litStr "array",
   Ty.litStr "attempt", Ty.litStr "base", Ty.litStr "body", Ty.litStr "cases",
   Ty.litStr "child", Ty.litStr "class", Ty.litStr "clause", Ty.litStr "condition",
   Ty.litStr "defaultBinding", Ty.litStr "elseBody", Ty.litStr "ensure",
   Ty.litStr "expression", Ty.litStr "expressions", Ty.litStr "first", Ty.litStr "from",
   Ty.litStr "guard", Ty.litStr "index", Ty.litStr "name", Ty.litStr "namedImports",
   Ty.litStr "object", Ty.litStr "objects", Ty.litStr "original", Ty.litStr "otherwise",
   Ty.litStr "params", Ty.litStr "parent", Ty.litStr "properties", Ty.litStr "range",
   Ty.litStr "recovery", Ty.litStr "second", Ty.litStr "source", Ty.litStr "specifiers",
   Ty.litStr "step", Ty.litStr "subject", Ty.litStr "to", Ty.litStr "value",
   Ty.litStr "variable"]

/-- The type aliases declared in the file: only `ChildKind`. -/
def typeAliases : List (String × Ty) := [("ChildKind", childKindTy)]

/-- Shorthand for an optional `AbstractO` parameter `o?: AbstractO`. -/
def optO : String × Bool × Ty := ("o", true, Ty.ref "AbstractO")

/-- Shorthand for a required `AbstractO` parameter `o: AbstractO`. -/
def reqO : String × Bool × Ty := ("o", false, Ty.ref "AbstractO")

/-- The `Base` class declaration (src/index.d.ts lines 47-144). -/
def baseDecl : ClassDecl :=
  ⟨DeclKind.classK, "Base", none,
   [mkField "children" (Ty.arr (Ty.ref "ChildKind")),
    mkField "compiledComments" (Ty.arr (Ty.ref "Base")),
    mkField "locationData" (Ty.ref "LocationData"),
    mkMethod "contains" [("pred", false, Ty.ref "Base")] (Ty.union Ty.litTrue Ty.undef),
    mkMethod "lastNode" [("list", false, Ty.arr (Ty.ref "Base"))]
      (Ty.union (Ty.ref "Base") Ty.nullTy),
    mkMethod "toString" [("idt", true, Ty.str), ("name", true, Ty.str)] Ty.str,
    mkMethod "eachChild"
      [("func", false, Ty.fn [("child", false, Ty.ref "Base")] Ty.boolean)]
      (Ty.ref "Base"),
    mkMethod "traverseChildren"
      [("crossScope", false, Ty.boolean),
       ("func", false, Ty.fn [("child", false, Ty.ref "Base")] Ty.boolean)]
      Ty.voidTy,
    mkMethod "replaceInContext"
      [("match", false, Ty.fn [("child", false, Ty.ref "Base")] Ty.boolean),
       ("replacement", false,
        Ty.fn [("childOrChildren", false,
                Ty.union (Ty.ref "Base") (Ty.arr (Ty.ref "Base"))),
               ("context", false, Ty.ref "Base")]
          (Ty.ref "Base"))]
      Ty.boolean,
    mkMethod "unwrapAll" [] (Ty.ref "Base"),
    mkMethod "isStatement" [optO] Ty.boolean,
    mkMethod "includeCommentFragments" [] Ty.boolean,
    mkMethod "jumps" [optO] Ty.boolean,
    mkMethod "shouldCache" [optO] Ty.boolean,
    mkMethod "isChainable" [optO] Ty.boolean,
    mkMethod "isAssignable" [optO] Ty.boolean,
    mkMethod "isNumber" [optO] Ty.boolean,
    mkMethod "assigns" [("name", false, Ty.str)] Ty.boolean,
    mkMethod "joinFragmentArrays"
      [("fragmentsList", false, Ty.arr (Ty.ref "Base")), ("joinStr", false, Ty.str)]
      (Ty.arr Ty.anyTy)]⟩

/-- The `Value` class declaration (src/index.d.ts lines 192-218). -/
def valueDecl : ClassDecl :=
  ⟨DeclKind.classK, "Value", some "Base",
   [mkField "base"
      (unionOf [Ty.ref "Obj", Ty.ref "Literal", Ty.ref "PropertyName",
                Ty.ref "Code", Ty.ref "Call"]),
    mkField "properties"
      (Ty.union (Ty.arr (Ty.ref "Assign")) (Ty.arr (Ty.ref "Access"))),
    mkField "isDefaultValue" Ty.boolean,
    mkMethod "shouldCache" [] Ty.boolean,
    mkMethod "assigns" [("name", false, Ty.str)] Ty.boolean,
    mkMethod "jumps" [reqO] Ty.boolean,
    mkMethod "isAssignable" [] Ty.boolean,
    mkMethod "isStatement" [reqO] Ty.boolean,
    mkMethod "hasProperties" [] Ty.boolean,
    mkMethod "isArray" [] Ty.boolean,
    mkMethod "isRange" [] Ty.boolean,
    mkMethod "isNumber" [] Ty.boolean,
    mkMethod "isString" [] Ty.boolean,
    mkMethod "isRegex" [] Ty.boolean,
    mkMethod "isUndefined" [] Ty.boolean,
    mkMethod "isNull" [] Ty.boolean,
    mkMethod "isBoolean" [] Ty.boolean,
    mkMethod "isAtomic" [] Ty.boolean,
    mkMethod "isNotCallable" [] Ty.boolean,
    mkMethod "isObject" [("onlyGenerated", false, Ty.boolean)] Ty.boolean,
    mkMethod "isSplice" [] Ty.boolean,
    mkMethod "looksStatic" [("className", false, Ty.str)] Ty.boolean]⟩

/-- Every declaration of `declare namespace Nodes` (src/index.d.ts
lines 9-427), in source order; the interfaces `AbstractO` and `LocationData`
are included with kind `interfaceK`. -/
def nodesDecls : List ClassDecl :=
  [⟨DeclKind.interfaceK, "AbstractO", none,
    [mkField "index" Ty.num,
     mkField "level" Ty.num,
     mkField "indent" Ty.num,
     mkField "sharedScope" Ty.boolean,
     mkOptField "scope" (Ty.ref "Scope")]⟩,
   ⟨DeclKind.classK, "CodeFragment", none,
    [mkField "locationData" (Ty.ref "LocationData"),
     mkMethod "toString" [] Ty.str]⟩,
   baseDecl,
   ⟨DeclKind.classK, "HoistTarget", some "Base",
    [mkMethod "isStatement" [reqO] Ty.boolean]⟩,
   ⟨DeclKind.classK, "Block", some "Base",
    [mkField "expressions" (Ty.arr (Ty.ref "Base"))]⟩,
   ⟨DeclKind.classK, "Literal", some "Base",
    [mkField "value" Ty.str]⟩,
   ⟨DeclKind.classK, "NumberLiteral", some "Literal", []⟩,
   ⟨DeclKind.classK, "InfinityLiteral", some "NumberLiteral", []⟩,
   ⟨DeclKind.classK, "NaNLiteral", some "NumberLiteral", []⟩,
   ⟨DeclKind.classK, "StringLiteral", some "Literal", []⟩,
   ⟨DeclKind.classK, "RegexLiteral", some "Literal", []⟩,
   ⟨DeclKind.classK, "PassthroughLiteral", some "Literal", []⟩,
   ⟨DeclKind.classK, "IdentifierLiteral", some "Literal", []⟩,
   ⟨DeclKind.classK, "CSXTag", some "IdentifierLiteral", []⟩,
   ⟨DeclKind.classK, "PropertyName", some "Literal", []⟩,
   ⟨DeclKind.classK, "StatementLiteral", some "Literal", []⟩,
   ⟨DeclKind.classK, "ThisLiteral", some "Literal", []⟩,
   ⟨DeclKind.classK, "UndefinedLiteral", some "Literal", []⟩,
   ⟨DeclKind.classK, "NullLiteral", some "Literal", []⟩,
   ⟨DeclKind.classK, "BooleanLiteral", some "Literal", []⟩,
   ⟨DeclKind.classK, "Return", some "Base",
    [mkField "expression" (Ty.arr (Ty.ref "Base"))]⟩,
   ⟨DeclKind.classK, "YieldReturn", some "Return", []⟩,
   ⟨DeclKind.classK, "AwaitReturn", some "Return", []⟩,
   valueDecl,
   ⟨DeclKind.classK, "HereComment", some "Base",
    [mkField "content" Ty.str,
     mkField "newLine" Ty.boolean,
     mkField "unshift" Ty.boolean]⟩,
   ⟨DeclKind.classK, "LineComment", some "Base",
    [mkField "content" Ty.str,
     mkField "newLine" Ty.boolean,
     mkField "unshift" Ty.boolean]⟩,
   ⟨DeclKind.classK, "Call", some "Base",
    [mkField "variable" (Ty.ref "Value"),
     mkField "args" (Ty.arr (Ty.ref "Param")),
     mkField "isNew" Ty.boolean,
     mkField "csx" Ty.boolean]⟩,
   ⟨DeclKind.classK, "DynamicImportCall", some "Call", []⟩,
   ⟨DeclKind.classK, "SuperCall", some "Call", []⟩,
   ⟨DeclKind.classK, "Super", some "Base",
    [mkField "ancestor" (Ty.ref "Base")]⟩,
   ⟨DeclKind.classK, "RegexWithInterpolations", some "Call", []⟩,
   ⟨DeclKind.classK, "TaggedTemplateCall", some "Call", []⟩,
   ⟨DeclKind.classK, "Extends", some "Base",
    [mkField "child" (Ty.ref "IdentifierLiteral"),
     mkField "parent" (Ty.ref "IdentifierLiteral")]⟩,
   ⟨DeclKind.classK, "Access", some "Base",
    [mkField "name" (Ty.union (Ty.ref "IdentifierLiteral") (Ty.ref "PropertyName"))]⟩,
   ⟨DeclKind.classK, "Index", some "Base",
    [mkField "index" (Ty.ref "Value")]⟩,
   ⟨DeclKind.classK, "Range", some "Base",
    [mkField "from" (Ty.ref "Value"),
     mkField "to" (Ty.ref "Value")]⟩,
   ⟨DeclKind.classK, "Slice", some "Base",
    [mkField "range" (Ty.ref "Range")]⟩,
   ⟨DeclKind.classK, "Obj", some "Base",
    [mkField "generated" Ty.boolean,
     mkField "lhs" Ty.boolean,
     mkField "objects" (Ty.arr (Ty.ref "PropertyName")),
     mkField "properties" (Ty.arr (Ty.ref "Assign")),
     mkMethod "hasSplat" [] Ty.boolean]⟩,
   ⟨DeclKind.classK, "Arr", some "Base",
    [mkField "lhs" Ty.boolean,
     mkField "objects" (Ty.arr (Ty.ref "PropertyName"))]⟩,
   ⟨DeclKind.classK, "Class", some "Base",
    [mkField "variable" (Ty.ref "Value"),
     mkField "parent" (Ty.ref "Base"),
     mkField "body" (Ty.ref "Block")]⟩,
   ⟨DeclKind.classK, "ModuleDeclaration", some "Base",
    [mkField "clause" (Ty.ref "ImportClause"),
     mkField "source" Ty.str]⟩,
   ⟨DeclKind.classK, "ImportDeclaration", some "ModuleDeclaration", []⟩,
   ⟨DeclKind.classK, "ImportClause", some "Base",
    [mkField "defaultBinding" (Ty.ref "Base"),
     mkField "namedImports" (Ty.ref "Base")]⟩,
   ⟨DeclKind.classK, "ExportDeclaration", some "ModuleDeclaration", []⟩,
   ⟨DeclKind.classK, "ExportNamedDeclaration", some "ExportDeclaration", []⟩,
   ⟨DeclKind.classK, "ExportDefaultDeclaration", some "ExportDeclaration", []⟩,
   ⟨DeclKind.classK, "ExportAllDeclaration", some "ExportDeclaration", []⟩,
   ⟨DeclKind.classK, "ModuleSpecifierList", some "Base",
    [mkField "specifiers" (Ty.arr (Ty.ref "ModuleSpecifier"))]⟩,
   ⟨DeclKind.classK, "ImportSpecifierList", some "ModuleSpecifierList", []⟩,
   ⟨DeclKind.classK, "ExportSpecifierList", some "ModuleSpecifierList", []⟩,
   ⟨DeclKind.classK, "ModuleSpecifier", some "Base",
    [mkField "original" (Ty.ref "Base"),
     mkField "alias" (Ty.ref "Base"),
     mkField "identifier" Ty.str]⟩,
   ⟨DeclKind.classK, "ImportSpecifier", some "ModuleSpecifier", []⟩,
   ⟨DeclKind.classK, "ImportDefaultSpecifier", some "ImportSpecifier", []⟩,
   ⟨DeclKind.classK, "ImportNamespaceSpecifier", some "ImportSpecifier", []⟩,
   ⟨DeclKind.classK, "ExportSpecifier", some "ModuleSpecifier", []⟩,
   ⟨DeclKind.classK, "Assign", some "Base",
    [mkOptField "variable" (Ty.ref "Value"),
     mkField "value" (Ty.union (Ty.ref "Value") (Ty.ref "Code")),
     mkField "context" Ty.str,
     mkField "options"
       (Ty.obj [("param", false, Ty.str),
                ("subpattern", false, Ty.str),
                ("operatorToken", false, Ty.str),
                ("moduleDeclaration", false,
                 Ty.union (Ty.litStr "import") (Ty.litStr "export"))])]⟩,
   ⟨DeclKind.classK, "FuncGlyph", some "Base",
    [mkField "glyph" (Ty.union (Ty.litStr "->") (Ty.litStr "=>"))]⟩,
   ⟨DeclKind.classK, "Code", some "Base",
    [mkField "params" (Ty.arr (Ty.ref "Param")),
     mkField "body" (Ty.ref "Block"),
     mkField "funcGlyph" (Ty.ref "FuncGlyph"),
     mkField "bound" Ty.boolean,
     mkField "isGenerator" Ty.boolean,
     mkField "isAsync" Ty.boolean,
     mkField "isMethod" Ty.boolean]⟩,
   ⟨DeclKind.classK, "Param", some "Base",
    [mkField "name" (Ty.union (Ty.ref "Literal") (Ty.ref "Value")),
     mkOptField "value" (Ty.ref "Value"),
     mkOptField "splat" (Ty.ref "Splat")]⟩,
   ⟨DeclKind.classK, "Splat", some "Base",
    [mkField "name" (Ty.ref "Literal")]⟩,
   ⟨DeclKind.classK, "Expansion", some "Base", []⟩,
   ⟨DeclKind.classK, "While", some "Base",
    [mkField "condition" (Ty.ref "Base"),
     mkField "guard" (Ty.ref "Base"),
     mkField "body" (Ty.ref "Block")]⟩,
   ⟨DeclKind.classK, "Op", some "Base",
    [mkField "first" Ty.str,
     mkField "sencond" Ty.str]⟩,
   ⟨DeclKind.classK, "In", some "Base",
    [mkField "object" (Ty.ref "Base"),
     mkField "array" (Ty.ref "Base")]⟩,
   ⟨DeclKind.classK, "Try", some "Base",
    [mkField "attempt" (Ty.ref "Block"),
     mkField "recovery" (Ty.ref "Block"),
     mkField "ensure" (Ty.ref "Block")]⟩,
   ⟨DeclKind.classK, "Throw", some "Base",
    [mkField "expression" (Ty.ref "Base")]⟩,
   ⟨DeclKind.classK, "Existence", some "Base",
    [mkField "expression" (Ty.ref "Base")]⟩,
   ⟨DeclKind.classK, "Parens", some "Base",
    [mkField "body" (Ty.ref "Base")]⟩,
   ⟨DeclKind.classK, "StringWithInterpolations", some "Base",
    [mkField "body" (Ty.ref "Base")]⟩,
   ⟨DeclKind.classK, "For", some "While",
    [mkField "body" (Ty.ref "Block"),
     mkField "source" (Ty.ref "Base"),
     mkField "guard" (Ty.ref "Base"),
     mkField "step" (Ty.ref "Base")]⟩,
   ⟨DeclKind.classK, "Switch", some "Base",
    [mkField "subject" (Ty.ref "Base"),
     mkField "cases" (Ty.ref "Base"),
     mkField "otherwise" (Ty.ref "Base")]⟩,
   ⟨DeclKind.classK, "If", some "Base",
    [mkField "condition" (Ty.ref "Base"),
     mkField "body" (Ty.ref "Block"),
     mkField "elseBody" (Ty.ref "Block")]⟩,
   ⟨DeclKind.interfaceK, "LocationData", none,
    [mkField "first_line" Ty.num,
     mkField "first_column" Ty.num,
     mkField "last_line" Ty.num,
     mkField "last_column" Ty.num]⟩]

/-- The top-level `declare class Scope` (src/index.d.ts lines 3-7). -/
def scopeDecl : ClassDecl :=
  ⟨DeclKind.classK, "Scope", none,
   [mkField "variables"
      (Ty.arr (Ty.obj [("name", false, Ty.str), ("type", false, Ty.str)])),
    mkField "positions" Ty.anyTy,
    mkOptField "utilities" Ty.anyTy]⟩

/-- The top-level `interface CoffeeScriptStatic` (src/index.d.ts
lines 429-431). -/
def coffeeScriptStaticDecl : ClassDecl :=
  ⟨DeclKind.interfaceK, "CoffeeScriptStatic", none,
   [mkMethod "nodes" [("source", false, Ty.str), ("options", true, Ty.anyTy)]
      (Ty.ref "Block")]⟩

/-- The declarations outside the `Nodes` namespace. -/
def topDecls : List ClassDecl := [scopeDecl, coffeeScriptStaticDecl]

/-- All class/interface declarations of the file. -/
def allDecls : List ClassDecl := topDecls ++ nodesDecls

/-- The `declare module` declarations (src/index.d.ts lines 433-443):
module name paired with the entity of the `export =` clause. -/
def moduleDecls : List (String × String) :=
  [("coffeescript/lib/coffeescript/nodes", "Nodes"),
   ("coffeescript/lib/coffeescript/scope", "Scope"),
   ("coffeescript", "CoffeeScript")]

/-- The `declare const` declarations (src/index.d.ts line 445):
constant name paired with its declared type. -/
def constDecls : List (String × Ty) := [("CoffeeScript", Ty.ref "CoffeeScriptStatic")]

/-- Look a declaration up by name. -/
def findDecl (cs : List ClassDecl) (n : String) : Option ClassDecl :=
  cs.find? (fun c => c.name == n)

/-- A member declared directly in a class body (not inherited). -/
def localMember (c : ClassDecl) (m : String) : Option Member :=
  c.members.find? (fun mem => mem.name == m)

/-- The strict ancestors of a class, nearest first, following `extends`
clauses; `fuel` bounds the chain length (the declared hierarchy is acyclic
and at most four deep, so any fuel of at least five is exact). -/
def ancestorsAux (cs : List ClassDecl) : Nat → String → List String
  | 0, _ => []
  | fuel + 1, n =>
    match (findDecl cs n).bind ClassDecl.parent with
    | some p => p :: ancestorsAux cs fuel p
    | none => []

/-- The strict ancestors of a class in the whole file. -/
def ancestors (n : String) : List String := ancestorsAux allDecls 10 n

/-- `a` is a proper (strict) subtype of `b` through the declared `extends`
chain. -/
def properSubtypeOf (a b : String) : Bool := (ancestors a).contains b

/-- Resolve a member as TypeScript inheritance does: search the class's own
body, then the parent chain.  Returns the owning class's name together with
the member. -/
def resolveMemberAux (cs : List ClassDecl) : Nat → String → String → Option (String × Member)
  | 0, _, _ => none
  | fuel + 1, cn, mn =>
    match findDecl cs cn with
    | none => none
    | some c =>
      match localMember c mn with
      | some m => some (cn, m)
      | none =>
        match c.parent with
        | some p => resolveMemberAux cs fuel p mn
        | none => none

/-- Resolve a member (with inheritance) in the whole file. -/
def resolveMember (cn mn : String) : Option (String × Member) :=
  resolveMemberAux allDecls 10 cn mn

/-- The names of the classes of the `Nodes` namespace that are proper
subtypes of `Base` (the AST node classes). -/
def baseSubclassNames : List String :=
  (nodesDecls.filter (fun c => properSubtypeOf c.name "Base")).map ClassDecl.name

/-- The names of the classes of the `Nodes` namespace that are proper
subtypes of `Literal`. -/
def literalSubclassNames : List String :=
  (nodesDecls.filter (fun c => properSubtypeOf c.name "Literal")).map ClassDecl.name

/-- `true` when the class `cn` resolves member `mn` to a member declared on
class `owner`. -/
def inheritsFrom (cn mn owner : String) : Bool :=
  match resolveMember cn mn with
  | some (o, _) => o == owner
  | none => false

/-- A JavaScript runtime value, as far as the declared types constrain it. -/
inductive JsValue where
  | boolV (b : Bool) : JsValue
  | undefV : JsValue
  | nullV : JsValue
  | numV (n : Int) : JsValue
  | strV (s : String) : JsValue

/-- Whether a runtime value inhabits a declared type.  Structural on the
type; `ref`, `arr`, `obj` and `fn` types are not inhabited by the primitive
values modelled here. -/
def inhabitsB : JsValue → Ty → Bool
  | v, Ty.union a b => inhabitsB v a || inhabitsB v b
  | _, Ty.anyTy => true
  | JsValue.boolV b, Ty.litTrue => b
  | JsValue.boolV _, Ty.boolean => true
  | JsValue.undefV, Ty.undef => true
  | JsValue.undefV, Ty.voidTy => true
  | JsValue.nullV, Ty.nullTy => true
  | JsValue.numV _, Ty.num => true
  | JsValue.strV _, Ty.str => true
  | JsValue.strV s, Ty.litStr t => s == t
  | _, _ => false

/-- The declared return type of `Base.contains`, read off the embedded
declaration. -/
def containsRetTy : Option Ty :=
  (resolveMember "Base" "contains").bind fun p =>
    match p.2.ty with
    | Ty.fn _ r => some r
    | _ => none

/-- Inhabitation against an optional type; `none` admits nothing. -/
def inhabitsOpt (v : JsValue) : Option Ty → Bool
  | some t => inhabitsB v t
  | none => false

/-- `true` exactly when the type expression is a bare reference to a
declared class or interface. -/
def isRefTy : Ty → Bool
  | Ty.ref _ => true
  | _ => false

/-- C1: the module `coffeescript` exports the `CoffeeScript` constant of
type `CoffeeScriptStatic`, whose `nodes` member takes a required string
`source` and an optional `options` of type `any` and returns `Nodes.Block`;
`Block` extends `Base` and its `expressions` field is an array of `Base`
nodes. -/
theorem c1_coffeescript_nodes_signature :
    moduleDecls.contains ("coffeescript", "CoffeeScript") = true ∧
    constDecls = [("CoffeeScript", Ty.ref "CoffeeScriptStatic")] ∧
    localMember coffeeScriptStaticDecl "nodes" =
      some (mkMethod "nodes" [("source", false, Ty.str), ("options", true, Ty.anyTy)]
        (Ty.ref "Block")) ∧
    (findDecl nodesDecls "Block").map ClassDecl.parent = some (some "Base") ∧
    resolveMember "Block" "expressions" =
      some ("Block", mkField "expressions" (Ty.arr (Ty.ref "Base"))) :=
  ⟨by decide, rfl, rfl, rfl, rfl⟩

/-- C2: every class of the `Nodes` namespace that is a proper subtype of
`Base` resolves the members `children` and `locationData`, and both resolve
to the declarations made on `Base` itself (`children : ChildKind[]` and
`locationData : LocationData`): they are inherited, and no subclass
redeclares or removes them. -/
theorem c2_children_locationData_inherited :
    ∀ n ∈ baseSubclassNames,
      resolveMember n "children" =
        some ("Base", mkField "children" (Ty.arr (Ty.ref "ChildKind"))) ∧
      resolveMember n "locationData" =
        some ("Base", mkField "locationData" (Ty.ref "LocationData")) := by
  have h1 : baseSubclassNames.map (fun n => resolveMember n "children") =
      List.replicate 69
        (some ("Base", mkField "children" (Ty.arr (Ty.ref "ChildKind")))) := rfl
  have h2 : baseSubclassNames.map (fun n => resolveMember n "locationData") =
      List.replicate 69
        (some ("Base", mkField "locationData" (Ty.ref "LocationData"))) := rfl
  intro n hn
  exact ⟨List.eq_of_mem_replicate (h1 ▸ List.mem_map_of_mem _ hn),
         List.eq_of_mem_replicate (h2 ▸ List.mem_map_of_mem _ hn)⟩

/-- C2 witness: the concrete node class `If` is a proper subtype of `Base`
and inherits both members from `Base`. -/
theorem c2_witness :
    "If" ∈ baseSubclassNames ∧
    (resolveMember "If" "children" =
       some ("Base", mkField "children" (Ty.arr (Ty.ref "ChildKind"))) ∧
     resolveMember "If" "locationData" =
       some ("Base", mkField "locationData" (Ty.ref "LocationData"))) :=
  ⟨by decide, c2_children_locationData_inherited "If" (by decide)⟩

/-- C3: the file has no executable behaviour: every member of every class
and interface declaration is body-less, and the single namespace-level
function `nodes` is a body-less method signature of the
`CoffeeScriptStatic` interface. -/
theorem c3_no_executable_behavior :
    (allDecls.all fun c => c.members.all fun m => m.body.isNone) = true ∧
    (localMember coffeeScriptStaticDecl "nodes").map Member.body = some none ∧
    (localMember coffeeScriptStaticDecl "nodes").map Member.isMethod = some true :=
  ⟨by decide, rfl, rfl⟩

/-- C4: the `Nodes` namespace declares more than fifty distinct classes
that are proper subtypes of `Base`, and the file also declares the
supporting types `Scope`, `LocationData` and `CodeFragment`. -/
theorem c4_over_fifty_node_classes :
    50 < baseSubclassNames.length ∧
    baseSubclassNames.Nodup ∧
    (findDecl topDecls "Scope").isSome = true ∧
    (findDecl nodesDecls "LocationData").isSome = true ∧
    (findDecl nodesDecls "CodeFragment").isSome = true := by
  refine ⟨by decide, by decide, by decide, by decide, by decide⟩

/-- C5: the declared chain runs `Base` → `Literal` → `NumberLiteral`; the
literal classes named in the claim are all proper subtypes of `Literal`,
and every proper subtype of `Literal` is also a proper subtype of `Base`
and resolves the field `value : string` to the declaration on `Literal`. -/
theorem c5_literal_hierarchy :
    (findDecl nodesDecls "Literal").map ClassDecl.parent = some (some "Base") ∧
    (findDecl nodesDecls "NumberLiteral").map ClassDecl.parent = some (some "Literal") ∧
    (∀ n ∈ ["InfinityLiteral", "NaNLiteral", "StringLiteral", "IdentifierLiteral",
            "CSXTag", "BooleanLiteral"], n ∈ literalSubclassNames) ∧
    ∀ n ∈ literalSubclassNames,
      properSubtypeOf n "Base" = true ∧
      resolveMember n "value" = some ("Literal", mkField "value" Ty.str) := by
  refine ⟨rfl, rfl, by decide, ?_⟩
  have h1 : literalSubclassNames.map (fun n => properSubtypeOf n "Base") =
      List.replicate 14 true := rfl
  have h2 : literalSubclassNames.map (fun n => resolveMember n "value") =
      List.replicate 14 (some ("Literal", mkField "value" Ty.str)) := rfl
  intro n hn
  exact ⟨List.eq_of_mem_replicate (h1 ▸ List.mem_map_of_mem _ hn),
         List.eq_of_mem_replicate (h2 ▸ List.mem_map_of_mem _ hn)⟩

/-- C5 witness: the concrete class `CSXTag` is a proper subtype of
`Literal`, of `Base`, and inherits `value : string` from `Literal`. -/
theorem c5_witness :
    "CSXTag" ∈ literalSubclassNames ∧
    (properSubtypeOf "CSXTag" "Base" = true ∧
     resolveMember "CSXTag" "value" = some ("Literal", mkField "value" Ty.str)) :=
  ⟨by decide, c5_literal_hierarchy.2.2.2 "CSXTag" (by decide)⟩

/-- C6: the `LocationData` interface declares exactly the four required
numeric fields `first_line`, `first_column`, `last_line`, `last_column`. -/
theorem c6_location_data_fields :
    findDecl nodesDecls "LocationData" =
      some ⟨DeclKind.interfaceK, "LocationData", none,
        [mkField "first_line" Ty.num, mkField "first_column" Ty.num,
         mkField "last_line" Ty.num, mkField "last_column" Ty.num]⟩ := rfl

/-- C7: the module `coffeescript/lib/coffeescript/scope` exports `Scope`,
whose `variables` field is an array of `{ name: string, type: string }`
records, with a required `positions` field and an optional `utilities`
field. -/
theorem c7_scope_module_shape :
    moduleDecls.contains ("coffeescript/lib/coffeescript/scope", "Scope") = true ∧
    findDecl topDecls "Scope" =
      some ⟨DeclKind.classK, "Scope", none,
        [mkField "variables"
           (Ty.arr (Ty.obj [("name", false, Ty.str), ("type", false, Ty.str)])),
         mkField "positions" Ty.anyTy,
         mkOptField "utilities" Ty.anyTy]⟩ :=
  ⟨by decide, rfl⟩

/-- C8: the declared return type of `Base.contains` is the union
`true | undefined`; any runtime value inhabiting that declared type is the
literal `true` or `undefined`, so a caller can never observe `false`. -/
theorem c8_contains_never_false (v : JsValue)
    (h : inhabitsOpt v containsRetTy = true) :
    containsRetTy = some (Ty.union Ty.litTrue Ty.undef) ∧
    (v = JsValue.boolV true ∨ v = JsValue.undefV) := by
  have hc : containsRetTy = some (Ty.union Ty.litTrue Ty.undef) := rfl
  rw [hc] at h
  refine ⟨hc, ?_⟩
  cases v with
  | boolV b =>
    cases b with
    | true => exact Or.inl rfl
    | false => simp [inhabitsOpt, inhabitsB] at h
  | undefV => exact Or.inr rfl
  | nullV => simp [inhabitsOpt, inhabitsB] at h
  | numV n => simp [inhabitsOpt, inhabitsB] at h
  | strV s => simp [inhabitsOpt, inhabitsB] at h

/-- C8 witness: `undefined` inhabits the declared return type of
`Base.contains`, and the theorem classifies it. -/
theorem c8_witness :
    inhabitsOpt JsValue.undefV containsRetTy = true ∧
    (containsRetTy = some (Ty.union Ty.litTrue Ty.undef) ∧
     (JsValue.undefV = JsValue.boolV true ∨ JsValue.undefV = JsValue.undefV)) :=
  ⟨by decide, c8_contains_never_false JsValue.undefV (by decide)⟩

/-- C9: the `CodeFragment` class declares exactly a `locationData` field
and a `toString()` method, and no `code` member is declared or inherited. -/
theorem c9_codefragment_no_code_field :
    findDecl nodesDecls "CodeFragment" =
      some ⟨DeclKind.classK, "CodeFragment", none,
        [mkField "locationData" (Ty.ref "LocationData"),
         mkMethod "toString" [] Ty.str]⟩ ∧
    resolveMember "CodeFragment" "code" = none :=
  ⟨rfl, rfl⟩

/-- C10: the `Op` class declares exactly the two fields `first : string`
and `sencond : string` (the second operand field is misspelled), neither of
which is a reference to a declared node class, and no member named
`second` exists. -/
theorem c10_op_operands_are_strings :
    findDecl nodesDecls "Op" =
      some ⟨DeclKind.classK, "Op", some "Base",
        [mkField "first" Ty.str, mkField "sencond" Ty.str]⟩ ∧
    (resolveMember "Op" "first").map (fun p => isRefTy p.2.ty) = some false ∧
    (resolveMember "Op" "sencond").map (fun p => isRefTy p.2.ty) = some false ∧
    resolveMember "Op" "second" = none :=
  ⟨rfl, rfl, rfl, rfl⟩

end CSTypes



